import Mathlib

/-!
Shallow embedding of the incident-investigation agents
(`state.py`, `allStandaloneAgents/commander_agent.py`,
`allStandaloneAgents/metrics_agent_standalone.py`) and proofs about the
behaviour of their operations.

Modelling conventions:
* Python `str` is Lean `String`; Python numeric literals (floats such as
  `0.97`) are exact rationals `ℚ` (IEEE-754 representation error is out of
  scope).
* Python `dict[str, Any]` payloads whose internals no modelled operation
  inspects (alert payloads, message payloads, evidence maps) are modelled as
  string-keyed association lists `List (String × String)`.
* Fresh identifiers coming from `uuid.uuid4().hex[:8]` and timestamps coming
  from `datetime.now()` are modelled as explicit parameters (an id stream
  `Nat → String` where a loop draws several ids, a plain `String` where a
  single id or timestamp is drawn).
* `print`-based console narration and the `self.step` log counter have no
  effect on the data the programs compute and are omitted.
* Python exceptions (`KeyError` from a missing dict key, `ZeroDivisionError`)
  are modelled with `Except`.
-/

/-- ASCII lowering of one character, the effect of Python `str.lower()` on the
characters that actually occur in this repository's titles and keywords. -/
def lowerChar (c : Char) : Char :=
  if 65 ≤ c.toNat ∧ c.toNat ≤ 90 then Char.ofNat (c.toNat + 32) else c

/-- Model of Python `s.lower()` for the strings used by the correlation
engine (their only cased characters are ASCII letters). -/
def lowerStr (s : String) : String :=
  ⟨s.data.map lowerChar⟩

/-- Does the second character list start with the first one? -/
def startsWithChars : List Char → List Char → Bool
  | [], _ => true
  | _ :: _, [] => false
  | a :: as, b :: bs => a == b && startsWithChars as bs

/-- Does the character list contain `needle` as a contiguous run? -/
def hasSubChars (needle : List Char) : List Char → Bool
  | [] => startsWithChars needle []
  | c :: rest => startsWithChars needle (c :: rest) || hasSubChars needle rest

/-- Model of Python's substring test `needle in hay`. -/
def containsSub (hay needle : String) : Bool :=
  hasSubChars needle.data hay.data

/-- Round a rational to the nearest integer, halves to the even integer:
the rounding mode of Python's built-in `round`. -/
def roundHalfEven (x : ℚ) : ℤ :=
  let n := ⌊x⌋
  if x - n < 1 / 2 then n
  else if 1 / 2 < x - n then n + 1
  else if n % 2 = 0 then n else n + 1

/-- Model of Python `round(x, 1)` over exact rationals. -/
def round1 (x : ℚ) : ℚ :=
  ((roundHalfEven (10 * x) : ℤ) : ℚ) / 10

namespace State

/-- Severity enum from `state.py` (`class Severity`). -/
inductive Severity
  | P1_CRITICAL
  | P2_HIGH
  | P3_MEDIUM
  | P4_LOW
deriving DecidableEq

/-- Agent-role enum from `state.py` (`class AgentRole`). -/
inductive AgentRole
  | COMMANDER
  | LOGS_AGENT
  | METRICS_AGENT
  | DEPLOY_INTEL
deriving DecidableEq

/-- String value of an `AgentRole` member (it is a `str` Enum). -/
def AgentRole.value : AgentRole → String
  | .COMMANDER => "commander"
  | .LOGS_AGENT => "logs_agent"
  | .METRICS_AGENT => "metrics_agent"
  | .DEPLOY_INTEL => "deploy_intel"

/-- Phase enum from `state.py` (`class InvestigationPhase`). -/
inductive InvestigationPhase
  | ALERT_RECEIVED
  | TRIAGE
  | PARALLEL_INVESTIGATION
  | CORRELATION
  | ROOT_CAUSE_ANALYSIS
  | REMEDIATION_PLAN
  | COMPLETE
deriving DecidableEq

/-- Message-type enum from `state.py` (`class MessageType`). -/
inductive MessageType
  | INVESTIGATION_TASK
  | FINDING
  | CORRELATION_REQUEST
  | STATUS_UPDATE
  | ESCALATION
  | REMEDIATION_ACTION
deriving DecidableEq

/-- Receiver of a message: the Python annotation is `AgentRole | str`
(the string form is used for the broadcast target "ALL"). -/
inductive Receiver
  | role (r : AgentRole)
  | name (s : String)
deriving DecidableEq

/-- Open string map standing in for `dict[str, Any]` values whose internals
the modelled operations never inspect. -/
abbrev StrMap := List (String × String)

/-- `Finding` dataclass from `state.py`. -/
structure Finding where
  id : String
  agent : AgentRole
  timestamp : String
  title : String
  description : String
  severity : Severity
  evidence : StrMap
  related_services : List String
  related_log_ids : List String
  confidence : ℚ
deriving DecidableEq

/-- `AgentMessage` dataclass from `state.py`. -/
structure AgentMessage where
  id : String
  timestamp : String
  sender : AgentRole
  receiver : Receiver
  msg_type : MessageType
  payload : StrMap
  in_reply_to : Option String
deriving DecidableEq

/-- `RootCauseAnalysis` dataclass from `state.py` (held by
`SharedState.rca`; its list-of-dict fields are `StrMap` lists). -/
structure RootCauseAnalysis where
  id : String
  timestamp : String
  summary : String
  root_causes : List StrMap
  contributing_factors : List String
  timeline : List StrMap
  remediation_steps : List StrMap
  severity : Severity
  blast_radius : List String
  findings_used : List String
deriving DecidableEq

/-- `SharedState` dataclass from `state.py`.  The `uuid`/`datetime` default
factories for `investigation_id` and `created_at` are explicit arguments of
`initState` below; all other fields carry the dataclass defaults. -/
structure SharedState where
  investigation_id : String
  created_at : String
  phase : InvestigationPhase := .ALERT_RECEIVED
  severity : Severity := .P4_LOW
  alert : StrMap := []
  raw_logs : StrMap := []
  raw_metrics : StrMap := []
  raw_deployments : StrMap := []
  investigation_plan : StrMap := []
  findings : List Finding := []
  message_ledger : List AgentMessage := []
  correlations : List StrMap := []
  rca : Option RootCauseAnalysis := none
  needs_escalation : Bool := false
  investigation_complete : Bool := false
deriving DecidableEq

/-- A fresh `SharedState` with the given generated id and creation time. -/
def initState (iid ts : String) : SharedState :=
  { investigation_id := iid, created_at := ts }

/-- `SharedState.add_finding`: unconditionally appends the finding. -/
def SharedState.add_finding (s : SharedState) (f : Finding) : SharedState :=
  { s with findings := s.findings ++ [f] }

/-- `SharedState.send_message`: unconditionally appends to the ledger. -/
def SharedState.send_message (s : SharedState) (m : AgentMessage) : SharedState :=
  { s with message_ledger := s.message_ledger ++ [m] }

/-- The arguments of one `CommunicationBus.dispatch` call, together with the
fresh message id and timestamp the `AgentMessage` default factories draw
during that call. -/
structure DispatchCall where
  newId : String
  newTs : String
  sender : AgentRole
  receiver : Receiver
  msg_type : MessageType
  payload : StrMap
  in_reply_to : Option String := none
deriving DecidableEq

/-- The `AgentMessage` that `CommunicationBus.dispatch` constructs from its
arguments. -/
def msgOfCall (c : DispatchCall) : AgentMessage :=
  { id := c.newId, timestamp := c.newTs, sender := c.sender,
    receiver := c.receiver, msg_type := c.msg_type, payload := c.payload,
    in_reply_to := c.in_reply_to }

/-- `CommunicationBus.dispatch`: builds the message, appends it through
`send_message`, and returns it. -/
def dispatch (s : SharedState) (c : DispatchCall) : AgentMessage × SharedState :=
  let msg := msgOfCall c
  (msg, s.send_message msg)

/-- `CommunicationBus.broadcast`: `dispatch` with receiver `"ALL"`. -/
def broadcast (s : SharedState) (newId newTs : String) (sender : AgentRole)
    (t : MessageType) (payload : StrMap) : AgentMessage × SharedState :=
  dispatch s { newId := newId, newTs := newTs, sender := sender,
               receiver := .name "ALL", msg_type := t, payload := payload }

/-- A sequence of `dispatch` calls on a shared state, returning the final
state and the messages returned by the calls, in call order. -/
def runDispatches (s : SharedState) : List DispatchCall → SharedState × List AgentMessage
  | [] => (s, [])
  | c :: cs =>
    let r := dispatch s c
    let rest := runDispatches r.2 cs
    (rest.1, r.1 :: rest.2)

end State

namespace Commander

/-- One simulated specialist finding dict from `commander_agent.py`
(`SPECIALIST_FINDINGS` items after `collect_findings` stamps `id`/`agent`). -/
structure CFinding where
  id : String
  agent : String
  title : String
  severity : String
  confidence : ℚ
  evidence : State.StrMap := []
deriving DecidableEq

/-- One entry of `CORRELATION_RULES`: `(title, description, keywords, confidence)`. -/
structure CorrelationRule where
  title : String
  description : String
  keywords : List String
  confidence : ℚ
deriving DecidableEq

/-- One correlation dict appended by `CommanderAgent.correlate`. -/
structure CorrelationLink where
  id : String
  title : String
  description : String
  linked : List String
  confidence : ℚ
deriving DecidableEq

/-- The `CORRELATION_RULES` table from `commander_agent.py`. -/
def CORRELATION_RULES : List CorrelationRule :=
  [{ title := "Memory Leak ↔ Unbounded Queue Config",
     description := "v2.14.0 unbounded queue + 4x threads → OOM at batchAllocate → 95 MiB/min leak.",
     keywords := ["memory", "oom", "unbounded"], confidence := 0.97 },
   { title := "Slow Queries ↔ Missing Index ↔ Pool Exhaustion",
     description := "Cancelled index → full table scans 38-45s → 200 connections held → 1847 queued.",
     keywords := ["index", "pool", "connection", "slow query"], confidence := 0.95 },
   { title := "Traffic Spike × Degraded Capacity = Cascade",
     description := "3x Flash Sale traffic hit 33% capacity. Raised circuit breaker delayed cutoff.",
     keywords := ["traffic", "capacity", "circuit", "cascading"], confidence := 0.93 },
   { title := "Stale TLS ↔ Cert Rotation ↔ Canary Failure",
     description := "Partial cert rotation left canary with expired cert. Cannot connect to DB.",
     keywords := ["tls", "cert"], confidence := 0.96 }]

/-- A rule matches a finding when some keyword is a substring of the
lower-cased title: `any(kw in f["title"].lower() for kw in keywords)`. -/
def ruleMatches (r : CorrelationRule) (f : CFinding) : Bool :=
  r.keywords.any (fun kw => containsSub (lowerStr f.title) kw)

/-- The list-comprehension `[f["id"] for f in self.findings if any(...)]`:
ids of the matching findings in input order. -/
def ruleLinked (fs : List CFinding) (r : CorrelationRule) : List String :=
  (fs.filter (fun f => ruleMatches r f)).map (fun f => f.id)

/-- The rule loop of `CommanderAgent.correlate`: for each rule in order,
collect the matching finding ids and append one correlation dict when at
least 2 findings matched.  `uids` is the stream of fresh `uid()` values and
`n` the index of the next unused one (`uid()` is drawn only when a rule
fires). -/
def correlateFrom (uids : Nat → String) (n : Nat) (fs : List CFinding) :
    List CorrelationRule → List CorrelationLink
  | [] => []
  | r :: rs =>
    let linked := ruleLinked fs r
    if 2 ≤ linked.length then
      { id := "corr-" ++ uids n, title := r.title, description := r.description,
        linked := linked, confidence := r.confidence } :: correlateFrom uids (n + 1) fs rs
    else
      correlateFrom uids n fs rs

/-- Projection of a correlation link onto every field except the freshly
generated `id`. -/
def eraseId (l : CorrelationLink) : String × String × List String × ℚ :=
  (l.title, l.description, l.linked, l.confidence)

/-- One root-cause dict of the commander's RCA. -/
structure RootCause where
  rank : Nat
  title : String
  detail : String
  confidence : ℚ
  category : String
deriving DecidableEq

/-- One remediation dict of the commander's RCA. -/
structure Remediation where
  p : String
  action : String
  cmd : String
  risk : String
deriving DecidableEq

/-- The RCA dict built by `CommanderAgent.build_rca`. -/
structure CommanderRCA where
  id : String
  timestamp : String
  severity : String
  summary : String
  root_causes : List RootCause
  contributing_factors : List String
  timeline : List (String × String)
  remediation : List Remediation
  blast_radius : List String
deriving DecidableEq

/-- The alert dict handed to `CommanderAgent`; the keys `triage` reads may be
absent (reading an absent key raises `KeyError`). -/
structure Alert where
  source : Option String := none
  title : Option String := none
  severity : Option String := none
  affected_service : Option String := none
  triggered_at : Option String := none
deriving DecidableEq

/-- An investigation task appended by `triage`:
`{"id": f"msg-{uid()}", "to": agent, "objective": objective}` (the dict key
`"to"` is a Lean keyword, hence the field name `to_agent`). -/
structure Task where
  id : String
  to_agent : String
  objective : String
deriving DecidableEq

/-- The investigation plan `triage` constructs: the hypothesis string and
the `tasks` dict (agent → objective) in insertion order. -/
structure Plan where
  hypothesis : String
  tasks : List (String × String)
deriving DecidableEq

/-- `CommanderAgent` instance state; field defaults are the `__init__`
assignments (the empty-dict plan and RCA are `none`). -/
structure CommanderAgent where
  alert : Alert
  severity : String := "P4_LOW"
  findings : List CFinding := []
  correlations : List CorrelationLink := []
  plan : Option Plan := none
  tasks : List Task := []
  rca : Option CommanderRCA := none
deriving DecidableEq

/-- Python error outcomes of the modelled commander operations. -/
inductive PyErr
  | keyError
deriving DecidableEq

/-- The constant plan dict assigned by `triage`. -/
def planConst : Plan :=
  { hypothesis := "payment-service degradation — memory leak, deploy regression, or infra failure",
    tasks :=
      [("logs_agent", "Find OOM errors, pool exhaustion, stack traces, cascading failures"),
       ("metrics_agent", "Analyze memory leak, latency, error rates, DB pool, pod health"),
       ("deploy_intel", "Map deployments + infra changes against incident timeline")] }

/-- The dispatch loop of `triage`: one task record per plan entry, each with
a fresh `uid()`. -/
def mkTasks (uids : Nat → String) : Nat → List (String × String) → List Task
  | _, [] => []
  | n, (a, o) :: rest =>
    { id := "msg-" ++ uids n, to_agent := a, objective := o } :: mkTasks uids (n + 1) rest

/-- `CommanderAgent.triage`.  It reads `alert["source"]`, `alert["title"]`
and `alert["severity"]` (in that order) — a missing key raises `KeyError` —
then sets `severity` to `"P1_CRITICAL"` when the alert severity is `"P1"`
and to `"P2_HIGH"` otherwise, stores the constant plan, and appends one task
per plan entry.  The `load_json` calls read mock-data files and discard the
result, so they have no effect on the agent state and are omitted. -/
def CommanderAgent.triage (uids : Nat → String) (c : CommanderAgent) :
    Except PyErr CommanderAgent :=
  match c.alert.source with
  | none => .error .keyError
  | some _ =>
    match c.alert.title with
    | none => .error .keyError
    | some _ =>
      match c.alert.severity with
      | none => .error .keyError
      | some lvl =>
        .ok { c with
              severity := if lvl = "P1" then "P1_CRITICAL" else "P2_HIGH",
              plan := some planConst,
              tasks := c.tasks ++ mkTasks uids 0 planConst.tasks }

/-- `CommanderAgent.correlate`: appends, in rule order, one correlation dict
per rule of `CORRELATION_RULES` that at least 2 findings match. -/
def CommanderAgent.correlate (uids : Nat → String) (c : CommanderAgent) : CommanderAgent :=
  { c with correlations := c.correlations ++ correlateFrom uids 0 c.findings CORRELATION_RULES }

/-- The hardcoded RCA dict that `CommanderAgent.build_rca` assigns, with the
fresh `uid()` and timestamp it draws. -/
def rcaConst (uid ts : String) : CommanderRCA :=
  { id := "rca-" ++ uid, timestamp := ts, severity := "P1_CRITICAL",
    summary := "COMPOUND FAILURE: v2.14.0 unbounded queue + 4x threads → 95 MiB/min leak → OOM every ~14 min. Compounded by missing DB index, partial TLS cert failure, 3x traffic spike, raised circuit breaker.",
    root_causes :=
      [{ rank := 1, title := "Unbounded in-memory queue in v2.14.0",
         detail := "kafka_backed→in_memory_unbounded. Threads 200→800. JVM=K8s limit.",
         confidence := 0.97, category := "deployment_regression" },
       { rank := 2, title := "Missing DB index — full table scans",
         detail := "Index rebuild cancelled. 2.8M row scans at 38-45s each.",
         confidence := 0.95, category := "infrastructure_gap" }],
    contributing_factors :=
      ["3x traffic from Flash Sale",
       "Partial TLS cert rotation — canary can't reach DB",
       "Circuit breaker raised 50%→70%",
       "JVM heap 4Gi = K8s limit (no GC headroom)",
       "Deadlocks in batch processor"],
    timeline :=
      [("Feb5 10:00", "DB index rebuild cancelled"),
       ("Feb5 16:00", "TLS cert rotation PARTIAL FAILURE"),
       ("Feb5 20:00", "Circuit breaker → 70%"),
       ("Feb5 22:30", "v2.14.0 canary deployed (15%)"),
       ("Feb6 06:00", "Flash Sale push sent"),
       ("Feb6 07:45", "3x traffic spike"),
       ("Feb6 07:48", "First OOMKill"),
       ("Feb6 08:00", "⚠ INCIDENT — 503s at gateway"),
       ("Feb6 08:04", "CrashLoopBackOff"),
       ("Feb6 08:06", "DB pool exhausted"),
       ("Feb6 08:13", "33% capacity, circuit OPEN")],
    remediation :=
      [{ p := "IMMEDIATE", action := "Rollback to v2.13.2",
         cmd := "kubectl rollout undo deployment/payment-service", risk := "LOW" },
       { p := "IMMEDIATE", action := "Rebuild missing DB index",
         cmd := "CREATE INDEX CONCURRENTLY idx_transactions_status_created_at ON transactions(status,created_at);",
         risk := "LOW" },
       { p := "IMMEDIATE", action := "Rotate TLS certs",
         cmd := "kubectl rollout restart deployment/payment-service", risk := "LOW" },
       { p := "SHORT_TERM", action := "Circuit breaker → 50%",
         cmd := "circuit_breaker.error_threshold_pct=50", risk := "LOW" },
       { p := "SHORT_TERM", action := "K8s memory → 5Gi",
         cmd := "kubectl set resources ... --limits=memory=5Gi", risk := "MEDIUM" },
       { p := "PREVENTIVE", action := "Bounded queue for v2.14.0",
         cmd := "BlockingQueue(capacity=10000)", risk := "CODE_REVIEW" }],
    blast_radius :=
      ["payment-service (94%)", "order-service", "api-gateway",
       "notification-service", "end users"] }

/-- `CommanderAgent.build_rca`: assigns the hardcoded RCA dict.  It reads
neither `self.findings` nor `self.correlations` and performs no check. -/
def CommanderAgent.build_rca (uid ts : String) (c : CommanderAgent) : CommanderAgent :=
  { c with rca := some (rcaConst uid ts) }

/-- Modelled from the spec: severity strings ordered
`P1_CRITICAL > P2_HIGH > P3_MEDIUM > P4_LOW`; used only to compare the
code's RCA severity with the specified "maximum severity among findings". -/
def sevRank : String → Nat
  | "P1_CRITICAL" => 3
  | "P2_HIGH" => 2
  | "P3_MEDIUM" => 1
  | _ => 0

/-- Modelled from the spec: the maximum severity among a finding set under
the order `P1_CRITICAL > P2_HIGH > P3_MEDIUM > P4_LOW`. -/
def specMaxSeverity (fs : List CFinding) : String :=
  fs.foldl (fun acc f => if sevRank acc < sevRank f.severity then f.severity else acc)
    "P4_LOW"

end Commander

namespace Metrics

/-- One entry of the latency timeseries; `check_latency` reads only the
`"p99"` key. -/
structure LatencyPoint where
  p99 : ℚ
deriving DecidableEq

/-- The fields of the finding `check_latency` emits through `_add_finding`
that carry computed values (the formatted title/description strings are
print-narration over the same three numbers). -/
structure LatencyFinding where
  severity : String
  confidence : ℚ
  p99_start : ℚ
  p99_peak : ℚ
  factor : ℚ
deriving DecidableEq

/-- Python runtime error outcomes of the modelled metrics checks. -/
inductive MetricsErr
  | zeroDivision
deriving DecidableEq

/-- `max(t["p99"] for t in self.latency)` over the non-empty series
`p :: rest`. -/
def maxP99 (p : LatencyPoint) (rest : List LatencyPoint) : ℚ :=
  rest.foldl (fun acc t => max acc t.p99) p.p99

/-- `MetricsAgent.check_latency`: on an empty series it skips (no finding);
otherwise it computes `start`, `peak` and `factor = round(peak / start, 1)`
and appends exactly one finding.  When `start = 0` the division raises
`ZeroDivisionError`. -/
def check_latency (latency : List LatencyPoint) :
    Except MetricsErr (List LatencyFinding) :=
  match latency with
  | [] => .ok []
  | p :: rest =>
    let start := p.p99
    let peak := maxP99 p rest
    if start = 0 then .error .zeroDivision
    else
      .ok [{ severity := "P1_CRITICAL", confidence := 0.98,
             p99_start := start, p99_peak := peak,
             factor := round1 (peak / start) }]

/-- Concrete latency entry used in witnesses: baseline p99 of 1200 ms. -/
def ptA : LatencyPoint := { p99 := 1200 }

/-- Concrete latency entry used in witnesses: peak p99 of 25000 ms. -/
def ptB : LatencyPoint := { p99 := 25000 }

/-- Concrete two-entry latency series used in witnesses. -/
def seriesW : List LatencyPoint := [ptA, ptB]

end Metrics

namespace Commander

/-- Concrete id stream for witnesses (every draw yields "aaaaaaaa"). -/
def uidsA : Nat → String := fun _ => "aaaaaaaa"

/-- Second concrete id stream, differing from `uidsA` (as two uuid4 runs do). -/
def uidsB : Nat → String := fun _ => "bbbbbbbb"

/-- The demo alert from `commander_agent.py` (all keys present, level "P1"). -/
def alertP1 : Alert :=
  { source := some "PagerDuty",
    title := some "payment-service: P99 latency > 10s, error rate > 80%",
    severity := some "P1",
    affected_service := some "payment-service" }

/-- The demo alert with the "severity" key absent. -/
def alertNoSev : Alert :=
  { source := some "PagerDuty",
    title := some "payment-service: P99 latency > 10s, error rate > 80%" }

/-- Concrete finding whose title matches the "memory" keyword. -/
def findW1 : CFinding :=
  { id := "find-1", agent := "logs_agent",
    title := "Java OutOfMemoryError in payment-service",
    severity := "P1_CRITICAL", confidence := 0.97 }

/-- Second concrete finding matching the "memory" and "oom" keywords. -/
def findW2 : CFinding :=
  { id := "find-2", agent := "metrics_agent",
    title := "Memory leak confirmed — OOM every ~14 min",
    severity := "P1_CRITICAL", confidence := 0.96 }

/-- Concrete finding of severity `P2_HIGH` (matches no memory keyword). -/
def findP2 : CFinding :=
  { id := "find-3", agent := "logs_agent",
    title := "Cascading failure: order → payment-service",
    severity := "P2_HIGH", confidence := 0.92 }

/-- Concrete finding list on which exactly the first correlation rule fires. -/
def fsW : List CFinding := [findW1, findW2]

/-- The first rule of `CORRELATION_RULES`, restated for witnesses. -/
def ruleW : CorrelationRule :=
  { title := "Memory Leak ↔ Unbounded Queue Config",
    description := "v2.14.0 unbounded queue + 4x threads → OOM at batchAllocate → 95 MiB/min leak.",
    keywords := ["memory", "oom", "unbounded"], confidence := 0.97 }

/-- Fresh commander on the demo alert (the `__init__` state). -/
def agentP1 : CommanderAgent := { alert := alertP1 }

/-- Fresh commander on the alert missing its "severity" key. -/
def agentNoSev : CommanderAgent := { alert := alertNoSev }

/-- Commander holding the two memory findings, before any phase ran. -/
def agentW : CommanderAgent := { alert := alertP1, findings := fsW }

/-- Commander whose only finding has severity `P2_HIGH`. -/
def agentP2 : CommanderAgent := { alert := alertP1, findings := [findP2] }

/-- Commander with an empty finding set. -/
def agentEmpty : CommanderAgent := { alert := alertP1 }

end Commander

namespace State

/-- A concrete fresh shared state used in witnesses. -/
def stateW : SharedState := initState "inv-00000000" "2026-02-06T08:05:00Z"

/-- A finding whose confidence 1.5 lies outside [0,1]. -/
def findingBad : Finding :=
  { id := "find-bad", agent := .LOGS_AGENT, timestamp := "t0",
    title := "OutOfMemoryError in TransactionProcessor", description := "",
    severity := .P1_CRITICAL, evidence := [], related_services := [],
    related_log_ids := [], confidence := 1.5 }

end State

open State Commander Metrics

/-- Every correlation link produced by the rule loop carries the title of one
of the rules it was given. -/
theorem correlateFrom_title_mem (uids : Nat → String) (fs : List CFinding) :
    ∀ (rules : List CorrelationRule) (n : Nat) (l : CorrelationLink),
      l ∈ correlateFrom uids n fs rules → l.title ∈ rules.map (fun x => x.title) := by
  intro rules
  induction rules with
  | nil => intro n l h; simp [correlateFrom] at h
  | cons r1 rs ih =>
    intro n l h
    by_cases hf : 2 ≤ (ruleLinked fs r1).length
    · rw [correlateFrom, if_pos hf] at h
      rcases List.mem_cons.mp h with h1 | h2
      · subst h1; simp
      · simp only [List.map_cons, List.mem_cons]
        exact Or.inr (ih (n + 1) l h2)
    · rw [correlateFrom, if_neg hf] at h
      simp only [List.map_cons, List.mem_cons]
      exact Or.inr (ih n l h)

/-- If a title does not occur in the rule list, no produced link carries it. -/
theorem correlateFrom_filter_nil (uids : Nat → String) (fs : List CFinding) (t : String) :
    ∀ (rules : List CorrelationRule) (n : Nat), t ∉ rules.map (fun x => x.title) →
      (correlateFrom uids n fs rules).filter (fun l => l.title == t) = [] := by
  intro rules
  induction rules with
  | nil => intro n _; simp [correlateFrom]
  | cons r1 rs ih =>
    intro n ht
    simp only [List.map_cons, List.mem_cons, not_or] at ht
    obtain ⟨ht1, ht2⟩ := ht
    by_cases hf : 2 ≤ (ruleLinked fs r1).length
    · rw [correlateFrom, if_pos hf, List.filter_cons]
      have hbeq : (r1.title == t) = false := by
        simp only [beq_eq_false_iff_ne, ne_eq]
        exact fun hc => ht1 hc.symm
      simp only [hbeq, Bool.false_eq_true, if_false]
      exact ih (n + 1) ht2
    · rw [correlateFrom, if_neg hf]
      exact ih n ht2

/-- Characterisation of the links a given rule contributes: with pairwise
distinct rule titles, a rule with at least 2 matches contributes exactly one
link (its matched ids, its prior confidence) and a rule with fewer than 2
matches contributes none, wherever the rule sits in the table and whatever
ids were already drawn. -/
theorem correlateFrom_filter_spec (uids : Nat → String) (fs : List CFinding) :
    ∀ (rules : List CorrelationRule) (r : CorrelationRule) (n : Nat),
      (rules.map (fun x => x.title)).Nodup → r ∈ rules →
      ((2 ≤ (ruleLinked fs r).length → ∃ u,
          (correlateFrom uids n fs rules).filter (fun l => l.title == r.title)
            = [{ id := u, title := r.title, description := r.description,
                 linked := ruleLinked fs r, confidence := r.confidence }])
       ∧ ((ruleLinked fs r).length < 2 →
          (correlateFrom uids n fs rules).filter (fun l => l.title == r.title) = [])) := by
  intro rules
  induction rules with
  | nil => intro r n _ hr; simp at hr
  | cons r1 rs ih =>
    intro r n hnd hr
    simp only [List.map_cons, List.nodup_cons] at hnd
    obtain ⟨h1, h2⟩ := hnd
    rcases List.mem_cons.mp hr with heq | hmem
    · subst heq
      constructor
      · intro hlen
        refine ⟨"corr-" ++ uids n, ?_⟩
        rw [correlateFrom, if_pos hlen, List.filter_cons,
            correlateFrom_filter_nil uids fs r.title rs (n + 1) h1]
        simp
      · intro hlen
        rw [correlateFrom, if_neg (by omega)]
        exact correlateFrom_filter_nil uids fs r.title rs n h1
    · have hne : (r1.title == r.title) = false := by
        simp only [beq_eq_false_iff_ne, ne_eq]
        intro hc
        exact h1 (hc ▸ List.mem_map_of_mem (fun x => x.title) hmem)
      by_cases hf : 2 ≤ (ruleLinked fs r1).length
      · constructor
        · intro hlen
          obtain ⟨u, hu⟩ := (ih r (n + 1) h2 hmem).1 hlen
          refine ⟨u, ?_⟩
          rw [correlateFrom, if_pos hf, List.filter_cons]
          simp only [hne, Bool.false_eq_true, if_false]
          exact hu
        · intro hlen
          rw [correlateFrom, if_pos hf, List.filter_cons]
          simp only [hne, Bool.false_eq_true, if_false]
          exact (ih r (n + 1) h2 hmem).2 hlen
      · rw [correlateFrom, if_neg hf]
        exact ih r n h2 hmem

/-- Claim C1: a rule of the table emits a correlation link iff at least 2
findings match it (a keyword of the rule being a case-insensitive substring
of the finding title); when it fires it emits exactly one link, whose linked
ids are the matched findings' ids in input order (a sublist of the input id
sequence) and whose confidence is the rule's prior confidence; with exactly
one match it emits no link. -/
theorem correlate_link_iff_two_matches (fs : List CFinding)
    (rules : List CorrelationRule) (uids : Nat → String)
    (hnd : (rules.map (fun x => x.title)).Nodup)
    (r : CorrelationRule) (hr : r ∈ rules) :
    (2 ≤ (ruleLinked fs r).length → ∃ u,
        (correlateFrom uids 0 fs rules).filter (fun l => l.title == r.title)
          = [{ id := u, title := r.title, description := r.description,
               linked := ruleLinked fs r, confidence := r.confidence }])
    ∧ ((ruleLinked fs r).length < 2 →
        (correlateFrom uids 0 fs rules).filter (fun l => l.title == r.title) = [])
    ∧ List.Sublist (ruleLinked fs r) (fs.map (fun f => f.id)) := by
  obtain ⟨ha, hb⟩ := correlateFrom_filter_spec uids fs rules r 0 hnd hr
  refine ⟨ha, hb, ?_⟩
  unfold ruleLinked
  exact List.Sublist.map (fun f => f.id) (List.filter_sublist fs)

/-- Witness for C1 at the rule table of the code and two findings matching
its first rule. -/
theorem correlate_link_iff_two_matches_witness :
    ((CORRELATION_RULES.map (fun x => x.title)).Nodup ∧ ruleW ∈ CORRELATION_RULES)
    ∧ ((2 ≤ (ruleLinked fsW ruleW).length → ∃ u,
          (correlateFrom uidsA 0 fsW CORRELATION_RULES).filter (fun l => l.title == ruleW.title)
            = [{ id := u, title := ruleW.title, description := ruleW.description,
                 linked := ruleLinked fsW ruleW, confidence := ruleW.confidence }])
       ∧ ((ruleLinked fsW ruleW).length < 2 →
          (correlateFrom uidsA 0 fsW CORRELATION_RULES).filter (fun l => l.title == ruleW.title) = [])
       ∧ List.Sublist (ruleLinked fsW ruleW) (fsW.map (fun f => f.id))) :=
  ⟨⟨by decide, List.mem_cons_self _ _⟩,
   correlate_link_iff_two_matches fsW CORRELATION_RULES uidsA (by decide)
     ruleW (List.mem_cons_self _ _)⟩

/-- Claim C9 (amended): correlation output is a pure function of the finding
titles/ids and the rule table in every field except the freshly drawn link
id; erasing ids, two runs with arbitrary id streams agree exactly. -/
theorem correlate_pure_modulo_ids (u1 u2 : Nat → String) (n1 n2 : Nat)
    (fs : List CFinding) (rules : List CorrelationRule) :
    (correlateFrom u1 n1 fs rules).map eraseId
      = (correlateFrom u2 n2 fs rules).map eraseId := by
  induction rules generalizing n1 n2 with
  | nil => rfl
  | cons r rs ih =>
    by_cases hf : 2 ≤ (ruleLinked fs r).length
    · rw [correlateFrom, correlateFrom, if_pos hf, if_pos hf,
          List.map_cons, List.map_cons]
      simp only [eraseId]
      exact congrArg _ (ih (n1 + 1) (n2 + 1))
    · rw [correlateFrom, correlateFrom, if_neg hf, if_neg hf]
      exact ih n1 n2

/-- Counterexample to claim C9 as stated: two runs of the correlation loop
on the same finding set and rule table, differing only in the uuid stream,
produce link lists that are not identical field for field (the id field
differs). -/
theorem correlate_runs_not_identical_cex :
    correlateFrom uidsA 0 fsW CORRELATION_RULES
      ≠ correlateFrom uidsB 0 fsW CORRELATION_RULES := by
  decide

/-- Claim C2: a sequence of N dispatch calls returns exactly the messages
built from the call arguments, appends them to the ledger in call order,
grows the ledger by exactly N, and leaves every previously appended entry in
place. -/
theorem dispatch_ledger_append (s : SharedState) (calls : List DispatchCall) :
    (runDispatches s calls).2 = calls.map msgOfCall
    ∧ (runDispatches s calls).1.message_ledger = s.message_ledger ++ calls.map msgOfCall
    ∧ (runDispatches s calls).1.message_ledger.length
        = s.message_ledger.length + calls.length
    ∧ (runDispatches s calls).1.message_ledger.take s.message_ledger.length
        = s.message_ledger := by
  have key : ∀ (cs : List DispatchCall) (t : SharedState),
      runDispatches t cs
        = ({ t with message_ledger := t.message_ledger ++ cs.map msgOfCall },
           cs.map msgOfCall) := by
    intro cs
    induction cs with
    | nil => intro t; simp [runDispatches]
    | cons c rest ih =>
      intro t
      rw [runDispatches, dispatch]
      simp only [SharedState.send_message, ih, List.map_cons]
      simp [List.append_assoc]
  rw [key calls s]
  refine ⟨rfl, rfl, ?_, ?_⟩
  · simp
  · simp [List.take_left]

/-- Claim C3 (amended): the severity of the RCA report built by
`build_rca` is the constant "P1_CRITICAL", whatever the findings are (in
particular it is unchanged under any reordering of them). -/
theorem rca_severity_always_p1_critical (uid ts : String) (c : CommanderAgent) :
    ((CommanderAgent.build_rca uid ts c).rca).map (fun r => r.severity)
      = some "P1_CRITICAL" := rfl

/-- Counterexample to claim C3 as stated: on a non-empty finding set whose
maximum severity is P2_HIGH, the produced RCA severity is still P1_CRITICAL,
not the maximum severity of the findings. -/
theorem rca_severity_not_max_cex :
    ((CommanderAgent.build_rca "aaaaaaaa" "t0" agentP2).rca).map (fun r => r.severity)
      = some "P1_CRITICAL"
    ∧ specMaxSeverity agentP2.findings = "P2_HIGH"
    ∧ "P1_CRITICAL" ≠ "P2_HIGH" := ⟨rfl, by decide, by decide⟩

/-- Claim C4: for a non-empty finding set, the RCA's root-cause ranks are
the contiguous sequence starting at 1 with no duplicates, and the root
causes are listed in descending confidence order (the hardcoded list carries
no severity field and has no confidence ties, so the severity-then-id
tie-break clauses of the ranking policy are vacuous on it). -/
theorem rca_root_cause_ranks (uid ts : String) (c : CommanderAgent)
    (_h : c.findings ≠ []) :
    (CommanderAgent.build_rca uid ts c).rca = some (rcaConst uid ts)
    ∧ (rcaConst uid ts).root_causes.map (fun rc => rc.rank)
        = List.range' 1 (rcaConst uid ts).root_causes.length
    ∧ ((rcaConst uid ts).root_causes.map (fun rc => rc.rank)).Nodup
    ∧ List.Chain' (fun a b => b.confidence ≤ a.confidence) (rcaConst uid ts).root_causes := by
  refine ⟨rfl, rfl, by simp [rcaConst], ?_⟩
  simp only [rcaConst, List.chain'_cons, List.chain'_singleton, and_true]
  norm_num

/-- Witness for C4 at a concrete one-finding commander. -/
theorem rca_root_cause_ranks_witness :
    agentP2.findings ≠ []
    ∧ ((CommanderAgent.build_rca "aaaaaaaa" "t0" agentP2).rca
          = some (rcaConst "aaaaaaaa" "t0")
       ∧ (rcaConst "aaaaaaaa" "t0").root_causes.map (fun rc => rc.rank)
          = List.range' 1 (rcaConst "aaaaaaaa" "t0").root_causes.length
       ∧ ((rcaConst "aaaaaaaa" "t0").root_causes.map (fun rc => rc.rank)).Nodup
       ∧ List.Chain' (fun a b => b.confidence ≤ a.confidence)
           (rcaConst "aaaaaaaa" "t0").root_causes) :=
  ⟨by decide, rca_root_cause_ranks "aaaaaaaa" "t0" agentP2 (by decide)⟩

/-- Claim C5 (amended): with the "source" and "title" keys present, triage
maps an alert severity of "P1" to P1_CRITICAL and any other present level to
P2_HIGH; an absent "severity" key makes triage fail with a KeyError (the
default P4_LOW set by the constructor is never produced by triage). -/
theorem triage_severity_mapping (uids : Nat → String) (c : CommanderAgent)
    (hs : c.alert.source.isSome = true) (ht : c.alert.title.isSome = true) :
    (c.alert.severity = some "P1" →
        CommanderAgent.triage uids c
          = Except.ok { c with
                        severity := "P1_CRITICAL"
                        plan := some planConst
                        tasks := c.tasks ++ mkTasks uids 0 planConst.tasks })
    ∧ (∀ lvl, c.alert.severity = some lvl → lvl ≠ "P1" →
        CommanderAgent.triage uids c
          = Except.ok { c with
                        severity := "P2_HIGH"
                        plan := some planConst
                        tasks := c.tasks ++ mkTasks uids 0 planConst.tasks })
    ∧ (c.alert.severity = none →
        CommanderAgent.triage uids c = Except.error PyErr.keyError) := by
  obtain ⟨src, hsrc⟩ := Option.isSome_iff_exists.mp hs
  obtain ⟨ttl, httl⟩ := Option.isSome_iff_exists.mp ht
  refine ⟨?_, ?_, ?_⟩
  · intro hsev
    simp [CommanderAgent.triage, hsrc, httl, hsev]
  · intro lvl hsev hne
    simp [CommanderAgent.triage, hsrc, httl, hsev, hne]
  · intro hsev
    simp [CommanderAgent.triage, hsrc, httl, hsev]

/-- Witness for C5 at the demo alert (severity level "P1"). -/
theorem triage_severity_mapping_witness :
    (agentP1.alert.source.isSome = true ∧ agentP1.alert.title.isSome = true)
    ∧ ((agentP1.alert.severity = some "P1" →
          CommanderAgent.triage uidsA agentP1
            = Except.ok { agentP1 with
                          severity := "P1_CRITICAL"
                          plan := some planConst
                          tasks := agentP1.tasks ++ mkTasks uidsA 0 planConst.tasks })
       ∧ (∀ lvl, agentP1.alert.severity = some lvl → lvl ≠ "P1" →
          CommanderAgent.triage uidsA agentP1
            = Except.ok { agentP1 with
                          severity := "P2_HIGH"
                          plan := some planConst
                          tasks := agentP1.tasks ++ mkTasks uidsA 0 planConst.tasks })
       ∧ (agentP1.alert.severity = none →
          CommanderAgent.triage uidsA agentP1 = Except.error PyErr.keyError)) :=
  ⟨⟨rfl, rfl⟩, triage_severity_mapping uidsA agentP1 rfl rfl⟩

/-- Counterexample to claim C5 as stated: on an alert with no "severity"
key, triage raises KeyError instead of defaulting the investigation
severity to P4_LOW. -/
theorem triage_absent_severity_cex :
    agentNoSev.alert.severity = none
    ∧ CommanderAgent.triage uidsA agentNoSev = Except.error PyErr.keyError :=
  ⟨rfl, rfl⟩

/-- Claim C6 (amended): on an empty finding set, `build_rca` does not fail:
it still assigns the full hardcoded RCA report (with a non-empty root-cause
list); no EmptyEvidence error exists in the code. -/
theorem build_rca_on_empty_emits_report (uid ts : String) (c : CommanderAgent)
    (_h : c.findings = []) :
    (CommanderAgent.build_rca uid ts c).rca = some (rcaConst uid ts)
    ∧ (rcaConst uid ts).root_causes ≠ [] :=
  ⟨rfl, by simp [rcaConst]⟩

/-- Witness for C6 at a commander with an empty finding set. -/
theorem build_rca_on_empty_emits_report_witness :
    agentEmpty.findings = []
    ∧ ((CommanderAgent.build_rca "aaaaaaaa" "t0" agentEmpty).rca
          = some (rcaConst "aaaaaaaa" "t0")
       ∧ (rcaConst "aaaaaaaa" "t0").root_causes ≠ []) :=
  ⟨rfl, build_rca_on_empty_emits_report "aaaaaaaa" "t0" agentEmpty rfl⟩

/-- Counterexample to claim C6 as stated: with zero findings, RCA synthesis
produces a report rather than failing. -/
theorem build_rca_no_empty_evidence_error_cex :
    agentEmpty.findings = []
    ∧ ((CommanderAgent.build_rca "aaaaaaaa" "t0" agentEmpty).rca).isSome = true :=
  ⟨rfl, rfl⟩

/-- Claim C7 (amended): `add_finding` appends the submitted finding
unconditionally; no confidence validation is performed. -/
theorem add_finding_appends_unconditionally (s : SharedState) (f : Finding) :
    (s.add_finding f).findings = s.findings ++ [f] := rfl

/-- Counterexample to claim C7 as stated: a finding with confidence 1.5,
outside [0,1], is stored unchanged (the state is modified, nothing is
rejected and nothing is clamped). -/
theorem add_finding_out_of_range_stored_cex :
    (stateW.add_finding findingBad).findings = [findingBad]
    ∧ 1 < findingBad.confidence
    ∧ (stateW.add_finding findingBad).findings ≠ stateW.findings := by
  refine ⟨rfl, ?_, ?_⟩
  · show (1 : ℚ) < 1.5
    norm_num
  · show [findingBad] ≠ []
    simp

/-- Claim C8 (amended): no operation consults or advances the phase state
machine: the `SharedState` helpers leave `phase` unchanged, and the
commander's stage operations proceed unconditionally (correlate appends its
computed links and build_rca assigns its report in any state), with no
InvalidTransition error anywhere in the code. -/
theorem no_phase_gating (s : SharedState) (m : AgentMessage) (f : Finding)
    (uids : Nat → String) (uid ts : String) (c : CommanderAgent) :
    (s.send_message m).phase = s.phase
    ∧ (s.add_finding f).phase = s.phase
    ∧ (CommanderAgent.correlate uids c).correlations
        = c.correlations ++ correlateFrom uids 0 c.findings CORRELATION_RULES
    ∧ (CommanderAgent.build_rca uid ts c).rca = some (rcaConst uid ts) :=
  ⟨rfl, rfl, rfl, rfl⟩

/-- Counterexample to claim C8 as stated: a fresh investigation state sits
in phase ALERT_RECEIVED (never CORRELATION, as nothing in the code ever
advances the phase), yet invoking correlate succeeds and changes the
commander state by appending a link instead of failing with
InvalidTransition and leaving the state unchanged. -/
theorem no_phase_gating_cex :
    (initState "inv-00000000" "t0").phase = InvestigationPhase.ALERT_RECEIVED
    ∧ (CommanderAgent.correlate uidsA agentW).correlations.length = 1
    ∧ agentW.correlations = [] :=
  ⟨rfl, by decide, rfl⟩

/-- The fold computing the latency peak is bounded below by its seed. -/
theorem foldl_max_seed_le (l : List LatencyPoint) :
    ∀ a : ℚ, a ≤ l.foldl (fun acc t => max acc t.p99) a := by
  induction l with
  | nil => intro a; exact le_refl a
  | cons c cs ih =>
    intro a
    exact le_trans (le_max_left a c.p99) (ih (max a c.p99))

/-- The fold computing the latency peak bounds every member of the list. -/
theorem foldl_max_mem_le (l : List LatencyPoint) :
    ∀ (a : ℚ) (q : LatencyPoint), q ∈ l →
      q.p99 ≤ l.foldl (fun acc t => max acc t.p99) a := by
  induction l with
  | nil => intro a q hq; simp at hq
  | cons c cs ih =>
    intro a q hq
    rcases List.mem_cons.mp hq with h1 | h2
    · subst h1
      exact le_trans (le_max_right a q.p99) (foldl_max_seed_le cs (max a q.p99))
    · exact ih (max a c.p99) q h2

/-- The fold computing the latency peak returns its seed or some member. -/
theorem foldl_max_attained (l : List LatencyPoint) :
    ∀ a : ℚ, l.foldl (fun acc t => max acc t.p99) a = a
      ∨ ∃ q ∈ l, l.foldl (fun acc t => max acc t.p99) a = q.p99 := by
  induction l with
  | nil => intro a; exact Or.inl rfl
  | cons c cs ih =>
    intro a
    rcases ih (max a c.p99) with h | ⟨q, hq, he⟩
    · rcases max_choice a c.p99 with hm | hm
      · left
        rw [List.foldl_cons, h, hm]
      · right
        exact ⟨c, List.mem_cons_self _ _, by rw [List.foldl_cons, h, hm]⟩
    · right
      exact ⟨q, List.mem_cons_of_mem _ hq, by rw [List.foldl_cons]; exact he⟩

/-- Claim C10: on an empty latency series no finding is emitted; on a
non-empty series whose first p99 is zero the division raises
ZeroDivisionError; otherwise exactly one finding is emitted, whose factor is
the maximum p99 over the series divided by the first p99, rounded half-even
to one decimal (`maxP99 p rest` is indeed the maximum: an upper bound on all
entries and attained by one of them). -/
theorem check_latency_factor (latency : List LatencyPoint) :
    (latency = [] → check_latency latency = Except.ok [])
    ∧ (∀ p rest, latency = p :: rest →
        (p.p99 = 0 → check_latency latency = Except.error MetricsErr.zeroDivision)
        ∧ (p.p99 ≠ 0 →
            check_latency latency
              = Except.ok [{ severity := "P1_CRITICAL", confidence := 0.98,
                             p99_start := p.p99, p99_peak := maxP99 p rest,
                             factor := round1 (maxP99 p rest / p.p99) }]
            ∧ (∀ q ∈ latency, q.p99 ≤ maxP99 p rest)
            ∧ (∃ q ∈ latency, maxP99 p rest = q.p99))) := by
  refine ⟨fun he => by rw [he]; rfl, ?_⟩
  intro p rest hcons
  subst hcons
  constructor
  · intro h0
    rw [check_latency, if_pos h0]
  · intro hne
    refine ⟨by rw [check_latency, if_neg hne], ?_, ?_⟩
    · intro q hq
      rcases List.mem_cons.mp hq with h1 | h2
      · subst h1
        exact foldl_max_seed_le rest q.p99
      · exact foldl_max_mem_le rest p.p99 q h2
    · rcases foldl_max_attained rest p.p99 with h | ⟨q, hq, he⟩
      · exact ⟨p, List.mem_cons_self _ _, h⟩
      · exact ⟨q, List.mem_cons_of_mem _ hq, he⟩

/-- Evaluation of the demo degradation factor: 25000/1200 rounded to one
decimal is 20.8. -/
theorem round1_val : round1 (25000 / 1200 : ℚ) = 20.8 := by
  have hx : (10 : ℚ) * (25000 / 1200) = ((625 : ℤ) : ℚ) / ((3 : ℕ) : ℚ) := by
    norm_num
  have hf : ⌊(10 : ℚ) * (25000 / 1200)⌋ = 208 := by
    rw [hx, Rat.floor_intCast_div_natCast]
    decide
  show ((roundHalfEven (10 * (25000 / 1200)) : ℤ) : ℚ) / 10 = 20.8
  rw [roundHalfEven]
  simp only [hf]
  norm_num

/-- Evaluation of the demo peak: the fold over the two-entry series. -/
theorem maxP99_val : maxP99 ptA [ptB] = 25000 := by
  show max ptA.p99 ptB.p99 = 25000
  rw [max_eq_right (by norm_num [ptA, ptB] : ptA.p99 ≤ ptB.p99)]
  rfl

/-- Witness for C10 at the demo series 1200 → 25000 (factor 20.8). -/
theorem check_latency_factor_witness :
    (seriesW = ptA :: [ptB] ∧ ptA.p99 ≠ 0)
    ∧ check_latency seriesW
        = Except.ok [{ severity := "P1_CRITICAL", confidence := 0.98,
                       p99_start := 1200, p99_peak := 25000, factor := 20.8 }] := by
  have h := ((check_latency_factor seriesW).2 ptA [ptB] rfl).2
    (by norm_num [ptA] : ptA.p99 ≠ 0)
  refine ⟨⟨rfl, by norm_num [ptA]⟩, ?_⟩
  rw [h.1, maxP99_val]
  have hp : ptA.p99 = 1200 := rfl
  rw [hp, round1_val]
